import Mathlib

/-!
# remix-server: resolver pipeline, group resolvers, request middleware, schema

A shallow embedding of

* `src/resolvers/base.js`   (`UnknownError`, `baseResolver`),
* `src/resolvers/groups.js` (`createGroup`, `getGroup`, `getChats`, `getMembers`,
  `getChat`, `getMessages`),
* `src/index.js`            (the user-context middleware and the GraphQL context),
* `src/schema.js`           (the type definitions, as data),

together with the queries of `src/__tests__/user.js` that the schema has to answer.

JavaScript objects are association lists of primitive values, promises are
`Except` results paired with the world they leave behind, and the persistent
store is an explicit value threaded through every resolver.
-/

namespace Remix

/-! ## JavaScript values -/

/-- Primitive JavaScript values that occur in arguments, payloads and rows. -/
inductive Prim where
  | undefined
  | null
  | str (s : String)
  | num (n : Nat)
  deriving DecidableEq, Repr

/-- A plain object: its own keys in insertion order. -/
abbrev Obj := List (String × Prim)

/-- Property read `o.k`; a missing key reads as `undefined`. -/
def Obj.get (o : Obj) (k : String) : Prim :=
  match o.lookup k with
  | some v => v
  | none => .undefined

/-! ## Errors (apollo-errors) -/

/-- Thrown values. `apollo` are the instances of classes made by apollo-errors'
`createError`; `other` is anything else (ORM errors, `TypeError`, ...). -/
inductive Err where
  | apollo (name : String) (message : String)
  | other (detail : String)
  deriving DecidableEq, Repr

/-- Is the value an apollo-errors instance (`isInstance` of apollo-errors). -/
def isInstance : Err → Bool
  | .apollo _ _ => true
  | .other _ => false

/-- The class `UnknownError` of `base.js`, lines 4-6, instantiated:
`new UnknownError()`. -/
def UnknownError : Err :=
  .apollo "UnknownError" "An unknown error has occurred!  Please try again later"

/-! ## The store -/

structure GroupRow where
  id : Nat
  iconUrl : Prim
  name : Prim
  description : Prim
  isDirectMessage : Bool
  deriving DecidableEq, Repr

structure ChatRow where
  id : Nat
  name : String
  groupId : Nat
  deriving DecidableEq, Repr

structure UserRow where
  id : Nat
  name : String
  deriving DecidableEq, Repr

structure MessageRow where
  id : Nat
  chatId : Nat
  userId : Nat
  contentId : Nat
  createdAt : Nat
  deriving DecidableEq, Repr

/-- The persistent store: one list of rows per table, in the order the
database hands the rows back when a query gives no ordering, and the
group-membership join table as (groupId, userId) pairs. -/
structure Store where
  users : List UserRow
  groups : List GroupRow
  members : List (Nat × Nat)
  chats : List ChatRow
  messages : List MessageRow
  nextGroupId : Nat
  deriving DecidableEq, Repr

/-- Values a resolver receives as `root` or resolves to. -/
inductive Val where
  | undefined
  | null
  | rootValue
  | group (g : GroupRow)
  | chat (c : ChatRow)
  | chats (cs : List ChatRow)
  | users (us : List UserRow)
  | messages (ms : List MessageRow)
  deriving DecidableEq, Repr

/-- The test `isNotNullOrUndefined` of apollo-resolvers. -/
def Val.isNotNullOrUndefined : Val → Bool
  | .undefined => false
  | .null => false
  | _ => true

/-- The GraphQL context built in `index.js`: `{ user: request.user }`; `none`
is `undefined`. -/
structure Context where
  user : Option Obj
  deriving DecidableEq, Repr

/-- One line written to the console. -/
inductive LogEntry where
  | base (props : Obj)
  | error (err : Err)
  | text (s : String)
  deriving DecidableEq, Repr

/-- Everything a resolver can read or change: the store, the console and the
clock. -/
structure World where
  store : Store
  console : List LogEntry
  now : Nat
  deriving DecidableEq, Repr

/-! ## apollo-resolvers: `createResolver` -/

/-- A resolver function `(root, args, context, info) => ...`: a promise is
its settled result and the world after it. -/
abbrev ResFn := Val → Obj → Context → World → Except Err Val × World

/-- An error handler `(root, args, context, error) => ...`: the value it
returns, `none` for `null` or `undefined`. -/
abbrev ErrFn := Val → Obj → Context → Err → Option Err

/-- A resolver made by apollo-resolvers: the two functions it was made from. -/
structure Resolver where
  resFn : Option ResFn
  errFn : Option ErrFn

/-- The function `createResolver(resFn, errFn)` of apollo-resolvers. -/
def createResolver (resFn : Option ResFn) (errFn : Option ErrFn) : Resolver :=
  { resFn := resFn, errFn := errFn }

/-- Calling a resolver: without a resolver function it resolves to `null`;
an error of the resolver function goes through the error handler, and what is
thrown in the end is the handler's value, or the original error when the
handler gives none. -/
def Resolver.run (r : Resolver) : ResFn := fun root args context w =>
  match r.resFn with
  | none => (.ok .null, w)
  | some f =>
    match f root args context w with
    | (.ok v, w1) => (.ok v, w1)
    | (.error e, w1) =>
      match r.errFn with
      | none => (.error e, w1)
      | some h =>
        match h root args context e with
        | some parsed => (.error parsed, w1)
        | none => (.error e, w1)

/-- The method `parent.createResolver(cResFn, cErrFn)` of apollo-resolvers: the
parent's resolver function runs first and the child's only when the parent
resolves to `null` or `undefined`; the child's error handler runs first and the
parent's only when the child's gives no value. -/
def Resolver.createResolver (parent : Resolver) (cResFn : Option ResFn)
    (cErrFn : Option ErrFn) : Resolver :=
  let childResFn : ResFn := fun root args context w =>
    let entry : Except Err Val × World :=
      match parent.resFn with
      | some f => f root args context w
      | none => (.ok .null, w)
    match entry with
    | (.error e, w1) => (.error e, w1)
    | (.ok r, w1) =>
      if r.isNotNullOrUndefined then (.ok r, w1)
      else
        match cResFn with
        | some c => c root args context w1
        | none => (.ok .null, w1)
  let childErrFn : ErrFn := fun root args context err =>
    let entry : Option Err :=
      match cErrFn with
      | some c => c root args context err
      | none => none
    match entry with
    | some r => some r
    | none =>
      match parent.errFn with
      | some h => h root args context err
      | none => none
  Remix.createResolver (some childResFn) (some childErrFn)

/-! ## `src/resolvers/base.js` -/

/-- The resolver function of `baseResolver` (lines 10-12): logs the arguments
and returns nothing. -/
def baseResFn : ResFn := fun _root props _context w =>
  (.ok .undefined, { w with console := w.console ++ [.base props] })

/-- The error handler of `baseResolver` as it stands (line 18):
`(root, args, context, error) => error`. -/
def baseErrFn : ErrFn := fun _root _args _context error => some error

/-- The error handler that line 19 holds in a comment and lines 14-17 describe:
`isInstance(error) ? error : new UnknownError()`. -/
def maskingErrFn : ErrFn := fun _root _args _context error =>
  some (if isInstance error then error else UnknownError)

def baseResolver : Resolver :=
  Remix.createResolver (some baseResFn) (some baseErrFn)

/-! ## The models of `src/connectors` (Sequelize), as used by `groups.js` -/

/-- Modelled from the spec: the model `Group` of `src/connectors` is not among
the sources. `Group.create(values)` of an available database inserts one row
with a fresh id and the given values; the spec (4.3) makes the new Group a
non-direct-message one with no members, so the row has `isDirectMessage`
false and the membership table is left as it is. -/
def Group.create (s : Store) (values : Obj) : GroupRow × Store :=
  let row : GroupRow :=
    { id := s.nextGroupId
      iconUrl := values.get "iconUrl"
      name := values.get "name"
      description := values.get "description"
      isDirectMessage := false }
  (row, { s with groups := s.groups ++ [row], nextGroupId := s.nextGroupId + 1 })

/-- The row id a GraphQL `ID` argument denotes, if any. -/
def Prim.toId : Prim → Option Nat
  | .num n => some n
  | .str s => s.toNat?
  | _ => none

/-- Modelled from the spec: `Group.findOne({ where: { id } })` of the missing
`src/connectors`: the first Group row with that id, `null` when there is none. -/
def Group.findOne (s : Store) (id : Prim) : Val :=
  match s.groups.find? (fun g => some g.id == id.toId) with
  | some g => .group g
  | none => .null

/-- Modelled from the spec: `Chat.findOne({ where: { id } })` of the missing
`src/connectors`: the first Chat row with that id, `null` when there is none. -/
def Chat.findOne (s : Store) (id : Prim) : Val :=
  match s.chats.find? (fun c => some c.id == id.toId) with
  | some c => .chat c
  | none => .null

/-- Modelled from the spec: the association getter `group.getChats()` of the
missing `src/connectors` ("Groups own their Chats"): the Chat rows of the
group, as the store holds them. -/
def GroupRow.getChats (g : GroupRow) (s : Store) : List ChatRow :=
  s.chats.filter (fun c => c.groupId == g.id)

/-- Modelled from the spec: the association getter `group.getMembers()` of the
missing `src/connectors`: the User rows that the membership table links to
the group. -/
def GroupRow.getMembers (g : GroupRow) (s : Store) : List UserRow :=
  s.users.filter (fun u => s.members.contains (g.id, u.id))

/-- Modelled from the spec: the association getter `chat.getMessages()` of the
missing `src/connectors`, called without options, so without an `order`: the
Message rows of the chat in the order the store hands them back. -/
def ChatRow.getMessages (c : ChatRow) (s : Store) : List MessageRow :=
  s.messages.filter (fun m => m.chatId == c.id)

/-! ## `src/resolvers/access` -/

/-- Modelled from the spec: the class `AuthenticationError` of the missing
`src/resolvers/access`, made with apollo-errors' `createError`. -/
def AuthenticationError : Err :=
  .apollo "AuthenticationError" "You must be authenticated to do this"

/-- A property that is neither `undefined` nor `null`. -/
def Prim.present : Prim → Bool
  | .undefined => false
  | .null => false
  | _ => true

/-- Modelled from the spec: the caller context carries a principal with a
valid, non-expired identity (4.1: "user.id present, token not expired"); a
principal without an `exp` does not expire. -/
def Context.authenticated (context : Context) (now : Nat) : Bool :=
  match context.user with
  | none => false
  | some u =>
    (u.get "id").present &&
      (match u.get "exp" with
       | .num exp => decide (now < exp)
       | _ => true)

/-- Modelled from the spec: the gate of the authentication step of the missing
`src/resolvers/access` (4.1): it throws `AuthenticationError` when the
context carries no valid principal and returns nothing otherwise. -/
def isAuthenticatedFn : ResFn := fun _root _args context w =>
  if context.authenticated w.now then (.ok .undefined, w)
  else (.error AuthenticationError, w)

/-- Modelled from the spec: `isAuthenticatedResolver` of the missing
`src/resolvers/access`: the authentication step chained after the base step
(4.1: "evaluated in order"). -/
def isAuthenticatedResolver : Resolver :=
  baseResolver.createResolver (some isAuthenticatedFn) none

/-! ## `src/resolvers/groups.js` -/

/-- The handler of `createGroup` (lines 7-15). -/
def createGroupFn : ResFn := fun _root args _context w =>
  let iconUrl := args.get "iconUrl"
  let name := args.get "name"
  let description := args.get "description"
  let (group, store1) :=
    Group.create w.store
      [("iconUrl", iconUrl), ("name", name), ("description", description)]
  (.ok (.group group), { w with store := store1 })

def createGroup : Resolver :=
  isAuthenticatedResolver.createResolver (some createGroupFn) none

/-- The handler of `getGroup` (lines 19-23). -/
def getGroupFn : ResFn := fun _root args _context w =>
  let id := args.get "id"
  let group := Group.findOne w.store id
  (.ok group, w)

def getGroup : Resolver :=
  isAuthenticatedResolver.createResolver (some getGroupFn) none

/-- The handler of `getChats` (lines 27-29); calling `getChats` on a root that
is not a Group row is a `TypeError`. -/
def getChatsFn : ResFn := fun group _args _context w =>
  match group with
  | .group g => (.ok (.chats (g.getChats w.store)), w)
  | _ => (.error (.other "TypeError: group.getChats is not a function"), w)

def getChats : Resolver :=
  baseResolver.createResolver (some getChatsFn) none

/-- The handler of `getMembers` (lines 33-35). -/
def getMembersFn : ResFn := fun group _args _context w =>
  match group with
  | .group g => (.ok (.users (g.getMembers w.store)), w)
  | _ => (.error (.other "TypeError: group.getMembers is not a function"), w)

def getMembers : Resolver :=
  baseResolver.createResolver (some getMembersFn) none

/-- The handler of `getChat` (lines 39-43). -/
def getChatFn : ResFn := fun _root args _context w =>
  let id := args.get "id"
  let chat := Chat.findOne w.store id
  (.ok chat, w)

def getChat : Resolver :=
  isAuthenticatedResolver.createResolver (some getChatFn) none

/-- The handler of `getMessages` (lines 47-49). -/
def getMessagesFn : ResFn := fun chat _args _context w =>
  match chat with
  | .chat c => (.ok (.messages (c.getMessages w.store)), w)
  | _ => (.error (.other "TypeError: chat.getMessages is not a function"), w)

def getMessages : Resolver :=
  isAuthenticatedResolver.createResolver (some getMessagesFn) none

/-! ## `src/index.js`: the user-context middleware -/

/-- What `checkToken(token)` of the missing `src/utils/token` does on a
token: it throws, or it returns a payload object (`none` for a return value
that is `null` or `undefined`). -/
inductive TokenResult where
  | throws (err : Err)
  | returns (payload : Option Obj)
  deriving DecidableEq, Repr

/-- The request as the middleware sees it: the value of
`req.get("authorization")` (`none` for `undefined`, a missing header) and the
property `req.user` (`none` while unset). -/
structure Request where
  authorization : Option String
  user : Option Obj
  deriving DecidableEq, Repr

/-- What one run of the middleware leaves behind: the request, the arguments
of every call of `next` in order (`none` for a call without argument), the
console lines, and the error it threw, if any. -/
structure MiddlewareResult where
  req : Request
  nextCalls : List (Option Err)
  console : List LogEntry
  thrown : Option Err
  deriving DecidableEq, Repr

/-- The middleware of `startExpressApp`, lines 44-63, over the verifier
`checkToken`. -/
def userContextMiddleware (checkToken : String → TokenResult) (req : Request) :
    MiddlewareResult :=
  let token := req.authorization
  -- if (token == "null" || !token) return next();
  if token == some "null" || token == none || token == some "" then
    { req := req, nextCalls := [none], console := [], thrown := none }
  else
    match token with
    | none => { req := req, nextCalls := [none], console := [], thrown := none }
    | some t =>
      match checkToken t with
      | .returns (some payload) =>
        { req :=
            { req with
              user := some [("id", payload.get "userId"), ("exp", payload.get "exp"),
                ("iat", payload.get "iat")] }
          nextCalls := [none], console := [], thrown := none }
      | .returns none =>
        -- reading a property of null or undefined throws inside the try block
        { req := req, nextCalls := [none]
          console :=
            [.error (.other "TypeError: Cannot read property of undefined"),
              .text "CANT GET USER"]
          thrown := none }
      | .throws err =>
        { req := req, nextCalls := [none]
          console := [.error err, .text "CANT GET USER"], thrown := none }

/-- The context option of `graphqlExpress`, line 75:
`context: { user: request.user }`. -/
def graphqlContext (request : Request) : Context :=
  { user := request.user }

/-! ## `src/schema.js`: the type definitions -/

/-- A type reference of the schema language: `T`, `T!`, `[T]`. -/
inductive TypeRef where
  | named (n : String)
  | nonNull (t : TypeRef)
  | list (t : TypeRef)
  deriving DecidableEq, Repr

/-- The named type under the wrappers. -/
def TypeRef.base : TypeRef → String
  | .named n => n
  | .nonNull t => t.base
  | .list t => t.base

def TypeRef.isNonNull : TypeRef → Bool
  | .nonNull _ => true
  | _ => false

structure FieldDef where
  name : String
  args : List (String × TypeRef)
  type : TypeRef
  deriving DecidableEq, Repr

structure ObjectType where
  name : String
  fields : List FieldDef
  deriving DecidableEq, Repr

/-- The type `Group` of `schema.js`, lines 56-63. -/
def groupType : ObjectType :=
  { name := "Group"
    fields :=
      [ ⟨"id", [], .nonNull (.named "ID")⟩,
        ⟨"iconUrl", [], .named "String"⟩,
        ⟨"name", [], .named "String"⟩,
        ⟨"description", [], .named "String"⟩,
        ⟨"chats", [], .list (.named "Chat")⟩,
        ⟨"members", [], .list (.named "User")⟩ ] }

/-- The type `Query` of `schema.js`, lines 70-80. -/
def queryType : ObjectType :=
  { name := "Query"
    fields :=
      [ ⟨"User", [("id", .nonNull (.named "ID"))], .named "User"⟩,
        ⟨"users", [("phrase", .nonNull (.named "String"))], .list (.named "User")⟩,
        ⟨"relevantUsers", [], .list (.named "User")⟩,
        ⟨"Group", [("id", .nonNull (.named "ID"))], .named "Group"⟩,
        ⟨"Chat", [("id", .nonNull (.named "ID"))], .named "Chat"⟩ ] }

/-- The type `Mutation` of `schema.js`, lines 82-158. -/
def mutationType : ObjectType :=
  { name := "Mutation"
    fields :=
      [ ⟨"createUser",
          [("email", .named "String"), ("phone_number", .named "String"),
            ("username", .named "String"), ("password", .named "String"),
            ("name", .named "String"), ("description", .named "String"),
            ("color", .named "String")],
          .named "User"⟩,
        ⟨"loginUserWithEmail",
          [("email", .nonNull (.named "String")), ("password", .nonNull (.named "String"))],
          .named "User"⟩,
        ⟨"loginUserWithPhone",
          [("phone_number", .nonNull (.named "String")),
            ("password", .nonNull (.named "String"))],
          .named "User"⟩,
        ⟨"createGroup", [("name", .named "String"), ("username", .named "String")],
          .named "String"⟩,
        ⟨"createFriendRequest",
          [("message", .named "String"), ("fromUserId", .nonNull (.named "ID")),
            ("toUserId", .nonNull (.named "ID"))],
          .named "String"⟩,
        ⟨"acceptFriendRequest", [("friendRequestId", .nonNull (.named "ID"))],
          .named "String"⟩,
        ⟨"createGroupRequest",
          [("message", .nonNull (.named "String")), ("fromUserId", .nonNull (.named "ID")),
            ("toUserId", .nonNull (.named "ID"))],
          .named "String"⟩,
        ⟨"createGroupInvitation",
          [("message", .nonNull (.named "String")), ("fromUserId", .nonNull (.named "ID")),
            ("toUserId", .nonNull (.named "ID")), ("forGroupId", .nonNull (.named "ID"))],
          .named "String"⟩,
        ⟨"createMessage",
          [("type", .nonNull (.named "String")), ("data", .nonNull (.named "JSON")),
            ("chatId", .nonNull (.named "ID"))],
          .named "Message"⟩,
        ⟨"createMessageWithExistingContent",
          [("contentId", .nonNull (.named "ID")), ("toChatId", .nonNull (.named "ID"))],
          .named "Message"⟩,
        ⟨"updateReadPosition", [("forMessageId", .nonNull (.named "ID"))],
          .named "ReadPosition"⟩ ] }

/-- The object types of `typeDefs` (`schema.js`, lines 5-159). -/
def typeDefs : List ObjectType :=
  [ { name := "FriendRequest"
      fields :=
        [ ⟨"id", [], .nonNull (.named "ID")⟩,
          ⟨"fromUser", [], .nonNull (.named "User")⟩,
          ⟨"toUser", [], .nonNull (.named "User")⟩,
          ⟨"message", [], .named "String"⟩,
          ⟨"createdAt", [], .named "String"⟩ ] },
    { name := "ReadPosition"
      fields :=
        [ ⟨"id", [], .nonNull (.named "ID")⟩,
          ⟨"userId", [], .nonNull (.named "ID")⟩,
          ⟨"chatId", [], .nonNull (.named "ID")⟩,
          ⟨"messageId", [], .nonNull (.named "ID")⟩ ] },
    { name := "User"
      fields :=
        [ ⟨"id", [], .nonNull (.named "ID")⟩,
          ⟨"token", [], .named "String"⟩,
          ⟨"name", [], .named "String"⟩,
          ⟨"username", [], .named "String"⟩,
          ⟨"description", [], .named "String"⟩,
          ⟨"iconUrl", [], .named "String"⟩,
          ⟨"color", [], .named "String"⟩,
          ⟨"friends", [], .list (.named "User")⟩,
          ⟨"groups", [], .list (.named "Group")⟩,
          ⟨"friendRequests", [], .list (.named "FriendRequest")⟩,
          ⟨"allMessages", [], .list (.named "Message")⟩ ] },
    { name := "Chat"
      fields :=
        [ ⟨"id", [], .nonNull (.named "ID")⟩,
          ⟨"name", [], .nonNull (.named "String")⟩,
          ⟨"messages", [], .list (.named "Message")⟩ ] },
    { name := "Message"
      fields :=
        [ ⟨"id", [], .nonNull (.named "ID")⟩,
          ⟨"chatId", [], .nonNull (.named "ID")⟩,
          ⟨"userId", [], .nonNull (.named "ID")⟩,
          ⟨"content", [], .named "Content"⟩ ] },
    { name := "Content"
      fields :=
        [ ⟨"type", [], .nonNull (.named "String")⟩,
          ⟨"data", [], .nonNull (.named "JSON")⟩ ] },
    groupType,
    { name := "Subscription"
      fields :=
        [ ⟨"newFriendRequest", [("toUserId", .named "ID")], .named "FriendRequest"⟩,
          ⟨"newMessage", [("forUserId", .nonNull (.named "ID"))], .named "Message"⟩ ] },
    queryType,
    mutationType ]

/-- The leaf types: the scalar `JSON` of line 7 and the built-in scalars. -/
def scalarTypes : List String :=
  ["JSON", "ID", "String", "Int", "Float", "Boolean"]

def findType (types : List ObjectType) (name : String) : Option ObjectType :=
  types.find? (fun t => t.name == name)

def ObjectType.field (t : ObjectType) (name : String) : Option FieldDef :=
  t.fields.find? (fun f => f.name == name)

/-! ## Selections and their validation (graphql-js) -/

/-- A field selection `name(arg: ..., ...) { sub }` with the names of the
arguments it passes. -/
inductive Selection where
  | field (name : String) (args : List String) (sub : List Selection)
  deriving Repr

/-- The validation errors of graphql-js that a selection can raise against a
schema. -/
inductive ValidationError where
  /-- Cannot query field "field" on type "type". -/
  | unknownField (type field : String)
  /-- Unknown argument "arg" on field "field" of type "type". -/
  | unknownArgument (type field arg : String)
  /-- Field "field" argument "arg" is required but not provided. -/
  | missingArgument (type field arg : String)
  /-- Field "field" must not have a selection since type "type" has no subfields. -/
  | noSubselectionAllowed (field type : String)
  /-- Field "field" of type "type" must have a selection of subfields. -/
  | requiredSubselection (field type : String)
  deriving DecidableEq, Repr

mutual
/-- Validation of one field selection on the object type named `parent`: the
field is known, its arguments are known and the required ones are given, a
leaf has no selection and an object type has one. -/
def validateField (types : List ObjectType) (parent : String) :
    Selection → List ValidationError
  | .field name args sub =>
    match (findType types parent).bind (fun t => t.field name) with
    | none => [.unknownField parent name]
    | some fd =>
      ((args.filter (fun a => !(fd.args.map Prod.fst).contains a)).map
          (fun a => ValidationError.unknownArgument parent name a)) ++
      (((fd.args.filter (fun d => d.2.isNonNull && !args.contains d.1)).map Prod.fst).map
          (fun a => ValidationError.missingArgument parent name a)) ++
      (match findType types fd.type.base with
       | some _ =>
         if sub.isEmpty then [.requiredSubselection name fd.type.base]
         else validateFields types fd.type.base sub
       | none =>
         if sub.isEmpty then [] else [.noSubselectionAllowed name fd.type.base])
/-- Validation of a selection set on the object type named `parent`. -/
def validateFields (types : List ObjectType) (parent : String) :
    List Selection → List ValidationError
  | [] => []
  | s :: rest => validateField types parent s ++ validateFields types parent rest
end

/-- The document `firstUserQuery` of the test "Two new friends are in a direct
message group" (`user.js`, lines 246-259), a query operation. -/
def firstUserQuery : List Selection :=
  [ .field "User" ["id"]
      [ .field "groups" []
          [ .field "id" [] [],
            .field "name" [] [],
            .field "isDirectMessage" [] [],
            .field "members" [] [ .field "id" [] [] ] ] ] ]

/-- The document `createFriendRequestQuery` of the test "Send new friend
request" (`user.js`, lines 140-150), a mutation operation. -/
def createFriendRequestQuery : List Selection :=
  [ .field "createFriendRequest" ["message", "fromUserId", "toUserId"]
      [ .field "id" [] [] ] ]

/-! ## A mutation request for `createGroup` -/

/-- What a request gets back for one root field: the validation errors of the
document, or the settled result of the field's resolver. -/
inductive Response where
  | invalid (errors : List ValidationError)
  | resolved (result : Except Err Val)

/-- The mutation `createGroup(args) sub` served against the schema made by
`makeExecutableSchema({ typeDefs, resolvers })` (`schema.js`, line 161) with
the resolver `Mutation.createGroup` of `groups.js`: graphql-js validates the
document against `typeDefs` first and runs the resolver, with the arguments
of the document, only when validation raises no error. -/
def requestCreateGroup (args : Obj) (sub : List Selection) (context : Context)
    (w : World) : Response × World :=
  match validateFields typeDefs "Mutation" [.field "createGroup" (args.map Prod.fst) sub] with
  | [] =>
    let r := createGroup.run .rootValue args context w
    (.resolved r.1, r.2)
  | err :: errs => (.invalid (err :: errs), w)

/-! ## Concrete inputs -/

/-- A store with one direct-message group of two users whose chat holds two
messages; the store hands back the later message first. -/
def sampleStore : Store :=
  { users := [⟨1, "Test User"⟩, ⟨2, "React Native"⟩]
    groups := [⟨1, .undefined, .str "friend", .undefined, true⟩]
    members := [(1, 1), (1, 2)]
    chats := [⟨1, "general", 1⟩]
    messages := [⟨2, 1, 2, 2, 20⟩, ⟨1, 1, 1, 1, 10⟩]
    nextGroupId := 2 }

def sampleWorld : World :=
  { store := sampleStore, console := [], now := 1000 }

/-- The context of the tests: `{ user: { id: "1" } }`. -/
def testContext : Context :=
  { user := some [("id", .str "1")] }

/-- The context of a request without principal: `{ user: undefined }`. -/
def anonymousContext : Context :=
  { user := none }

/-- An error of the persistence layer, not made by apollo-errors. -/
def ormError : Err :=
  .other "SequelizeDatabaseError: relation groups does not exist"

/-- A handler whose store call is rejected with `ormError`. -/
def ormFailingFn : ResFn := fun _root _args _context w => (.error ormError, w)

/-- A handler that is rejected with the domain error `err`. -/
def throwingFn (err : Err) : ResFn := fun _root _args _context w => (.error err, w)

/-- A verifier that accepts exactly the token "good" and decodes it to a
payload with more fields than the principal takes. -/
def sampleCheckToken : String → TokenResult := fun t =>
  if t == "good" then
    .returns (some [("userId", .num 7), ("email", .str "test"), ("iat", .num 100),
      ("exp", .num 200)])
  else .throws (.other "JsonWebTokenError: jwt malformed")

/-! ## Lemmas on the resolver chain -/

/-- A resolver chained directly under `baseResolver` logs, then runs its
handler, and rejects with whatever the handler rejects with. -/
theorem base_child_run (handler : ResFn) (root : Val) (args : Obj) (context : Context)
    (w : World) :
    (baseResolver.createResolver (some handler) none).run root args context w =
      handler root args context { w with console := w.console ++ [.base args] } := by
  simp only [Resolver.run, Resolver.createResolver, Remix.createResolver, baseResolver,
    baseResFn, baseErrFn, Val.isNotNullOrUndefined]
  rcases h : handler root args context { w with console := w.console ++ [.base args] } with
    ⟨r, w1⟩
  cases r <;> simp

/-- A resolver chained under `isAuthenticatedResolver` rejects with
`AuthenticationError` without running its handler when the context is not
authenticated, and otherwise behaves as its handler after the base log. -/
theorem authenticated_child_run (handler : ResFn) (root : Val) (args : Obj)
    (context : Context) (w : World) :
    (isAuthenticatedResolver.createResolver (some handler) none).run root args context w =
      if context.authenticated w.now then
        handler root args context { w with console := w.console ++ [.base args] }
      else
        (.error AuthenticationError, { w with console := w.console ++ [.base args] }) := by
  simp only [Resolver.run, Resolver.createResolver, Remix.createResolver,
    isAuthenticatedResolver, baseResolver, baseResFn, baseErrFn, isAuthenticatedFn,
    Val.isNotNullOrUndefined]
  by_cases hc : context.authenticated w.now = true
  · simp only [hc, if_true]
    rcases h : handler root args context { w with console := w.console ++ [.base args] } with
      ⟨r, w1⟩
    cases r <;> simp [h]
  · simp [hc]

/-- A context without principal is not authenticated, whatever the clock. -/
theorem not_authenticated_of_no_principal (context : Context) (now : Nat)
    (h : context.user = none ∨
      ∃ u, context.user = some u ∧ (u.get "id").present = false) :
    context.authenticated now = false := by
  rcases h with h | ⟨u, hu, hid⟩
  · simp [Context.authenticated, h]
  · simp [Context.authenticated, hu, hid]

/-! ## The claims -/

/-- C1, the code at a failing input: the outgoing error transform of
`baseResolver` hands an ORM error back as it is, where the transform described
in lines 14-19 gives `UnknownError`; a handler under `baseResolver` that is
rejected with the ORM error rejects the whole resolver with that same error. -/
theorem baseResolver_does_not_mask_orm_error :
    baseErrFn .rootValue [] testContext ormError = some ormError ∧
    baseErrFn .rootValue [] testContext ormError ≠ some UnknownError ∧
    maskingErrFn .rootValue [] testContext ormError = some UnknownError ∧
    ((baseResolver.createResolver (some ormFailingFn) none).run .rootValue []
        testContext sampleWorld).1 = .error ormError := by
  refine ⟨rfl, by decide, rfl, rfl⟩

/-- C2: for every apollo-errors instance, whatever its kind name and message
(so for Authentication, Authorization, NotFound and Conflict errors), the
outgoing error transform of `baseResolver` returns that same error, and a
resolver chained under `baseResolver` whose handler is rejected with it is
rejected with it, kind and message intact. -/
theorem baseResolver_passes_domain_error (root : Val) (args : Obj) (context : Context)
    (name message : String) (handler : ResFn) (w w1 : World)
    (h : handler root args context { w with console := w.console ++ [.base args] } =
      (.error (.apollo name message), w1)) :
    isInstance (.apollo name message) = true ∧
    baseErrFn root args context (.apollo name message) = some (.apollo name message) ∧
    (baseResolver.createResolver (some handler) none).run root args context w =
      (.error (.apollo name message), w1) := by
  refine ⟨rfl, rfl, ?_⟩
  rw [base_child_run, h]

/-- Witness of C2: a handler rejected with `AuthenticationError`. -/
theorem baseResolver_passes_domain_error_witness :
    isInstance AuthenticationError = true ∧
    baseErrFn .rootValue [] testContext AuthenticationError = some AuthenticationError ∧
    (baseResolver.createResolver (some (throwingFn AuthenticationError)) none).run
        .rootValue [] testContext sampleWorld =
      (.error AuthenticationError,
        { sampleWorld with console := sampleWorld.console ++ [.base []] }) :=
  baseResolver_passes_domain_error .rootValue [] testContext "AuthenticationError"
    "You must be authenticated to do this" (throwingFn AuthenticationError) sampleWorld
    { sampleWorld with console := sampleWorld.console ++ [.base []] } rfl

/-- C3, the code at a failing input: on a store that hands the two messages of
chat 1 back with the later one first, `getMessages` resolves to them in that
order, which is not non-decreasing in creation time. -/
theorem getMessages_keeps_store_order :
    (getMessages.run (.chat ⟨1, "general", 1⟩) [] testContext sampleWorld).1 =
      .ok (.messages [⟨2, 1, 2, 2, 20⟩, ⟨1, 1, 1, 1, 10⟩]) ∧
    ¬ List.Pairwise (fun a b => a ≤ b)
        (([⟨2, 1, 2, 2, 20⟩, ⟨1, 1, 1, 1, 10⟩] : List MessageRow).map
          (fun m => m.createdAt)) := by
  refine ⟨rfl, by decide⟩

/-- C4: when the context carries no principal (`context.user` absent, or
without an id), a resolver chained under `isAuthenticatedResolver` is rejected
with `AuthenticationError` and leaves the store as it was, whatever its
handler is (the handler does not run); so are `createGroup`, `getGroup`,
`getChat` and `getMessages`, and `createGroup` leaves the Groups as they were. -/
theorem gated_operations_reject_without_principal (context : Context) (root : Val)
    (args : Obj) (w : World)
    (h : context.user = none ∨
      ∃ u, context.user = some u ∧ (u.get "id").present = false) :
    (∀ handler : ResFn,
      (isAuthenticatedResolver.createResolver (some handler) none).run root args context w =
        (.error AuthenticationError, { w with console := w.console ++ [.base args] })) ∧
    (∀ op ∈ [createGroup, getGroup, getChat, getMessages],
      (op.run root args context w).1 = .error AuthenticationError ∧
      (op.run root args context w).2.store = w.store) := by
  have hna := not_authenticated_of_no_principal context w.now h
  have key : ∀ handler : ResFn,
      (isAuthenticatedResolver.createResolver (some handler) none).run root args context w =
        (.error AuthenticationError, { w with console := w.console ++ [.base args] }) := by
    intro handler
    rw [authenticated_child_run, hna]
    simp
  refine ⟨key, ?_⟩
  intro op hop
  simp only [List.mem_cons, List.mem_singleton, List.not_mem_nil, or_false] at hop
  rcases hop with rfl | rfl | rfl | rfl
  · simp [createGroup, key]
  · simp [getGroup, key]
  · simp [getChat, key]
  · simp [getMessages, key]

/-- Witness of C4 on the anonymous context and the sample store. -/
theorem gated_operations_reject_without_principal_witness :
    (∀ handler : ResFn,
      (isAuthenticatedResolver.createResolver (some handler) none).run .rootValue
          [("name", .str "g")] anonymousContext sampleWorld =
        (.error AuthenticationError,
          { sampleWorld with
            console := sampleWorld.console ++ [.base [("name", .str "g")]] })) ∧
    (∀ op ∈ [createGroup, getGroup, getChat, getMessages],
      (op.run .rootValue [("name", .str "g")] anonymousContext sampleWorld).1 =
        .error AuthenticationError ∧
      (op.run .rootValue [("name", .str "g")] anonymousContext sampleWorld).2.store =
        sampleWorld.store) :=
  gated_operations_reject_without_principal anonymousContext .rootValue
    [("name", .str "g")] sampleWorld (Or.inl rfl)

/-- C5: for every credential that passes the guard of line 47 (a header value
that is neither empty nor the string "null") and that `checkToken` decodes to
a payload `p`, the middleware sets `req.user` to the object with exactly the
keys `id`, `exp`, `iat` holding `p.userId`, `p.exp`, `p.iat`, calls `next`
once, and the GraphQL context built from the request has that object as
`context.user`. -/
theorem middleware_attaches_principal (checkToken : String → TokenResult) (req : Request)
    (token : String) (p : Obj)
    (hreq : req.authorization = some token) (hempty : token ≠ "") (hnull : token ≠ "null")
    (hdec : checkToken token = .returns (some p)) :
    (userContextMiddleware checkToken req).req.user =
      some [("id", p.get "userId"), ("exp", p.get "exp"), ("iat", p.get "iat")] ∧
    (graphqlContext (userContextMiddleware checkToken req).req).user =
      some [("id", p.get "userId"), ("exp", p.get "exp"), ("iat", p.get "iat")] ∧
    (userContextMiddleware checkToken req).nextCalls = [none] := by
  simp [userContextMiddleware, graphqlContext, hreq, hempty, hnull, hdec]

/-- Witness of C5: the token "good" of the sample verifier, whose payload also
has an `email`. -/
theorem middleware_attaches_principal_witness :
    (userContextMiddleware sampleCheckToken ⟨some "good", none⟩).req.user =
      some [("id", .num 7), ("exp", .num 200), ("iat", .num 100)] ∧
    (graphqlContext (userContextMiddleware sampleCheckToken ⟨some "good", none⟩).req).user =
      some [("id", .num 7), ("exp", .num 200), ("iat", .num 100)] ∧
    (userContextMiddleware sampleCheckToken ⟨some "good", none⟩).nextCalls = [none] :=
  middleware_attaches_principal sampleCheckToken ⟨some "good", none⟩ "good"
    [("userId", .num 7), ("email", .str "test"), ("iat", .num 100), ("exp", .num 200)]
    rfl (by decide) (by decide) rfl

/-- C6: when the authorization header is missing, empty, the string "null",
or a token that `checkToken` rejects (it throws, or it returns no payload),
the middleware leaves the request as it was (so `req.user` stays unset and
the context is anonymous), throws nothing, and calls `next` exactly once,
without an error argument. -/
theorem middleware_anonymous_passes_on (checkToken : String → TokenResult) (req : Request)
    (h : req.authorization = none ∨ req.authorization = some "" ∨
      req.authorization = some "null" ∨
      ∃ t, req.authorization = some t ∧
        ((∃ err, checkToken t = .throws err) ∨ checkToken t = .returns none)) :
    (userContextMiddleware checkToken req).req = req ∧
    (userContextMiddleware checkToken req).thrown = none ∧
    (userContextMiddleware checkToken req).nextCalls = [none] ∧
    (req.user = none →
      (graphqlContext (userContextMiddleware checkToken req).req).user = none) := by
  have key : (userContextMiddleware checkToken req).req = req ∧
      (userContextMiddleware checkToken req).thrown = none ∧
      (userContextMiddleware checkToken req).nextCalls = [none] := by
    rcases h with h | h | h | ⟨t, h, ⟨err, hthrow⟩ | hnone⟩
    · simp [userContextMiddleware, h]
    · simp [userContextMiddleware, h]
    · simp [userContextMiddleware, h]
    · simp only [userContextMiddleware, h, hthrow]
      split <;> exact ⟨rfl, rfl, rfl⟩
    · simp only [userContextMiddleware, h, hnone]
      split <;> exact ⟨rfl, rfl, rfl⟩
  refine ⟨key.1, key.2.1, key.2.2, ?_⟩
  intro hu
  rw [key.1]
  exact hu

/-- Witness of C6: a token that the sample verifier rejects. -/
theorem middleware_anonymous_passes_on_witness :
    (userContextMiddleware sampleCheckToken ⟨some "bad", none⟩).req = ⟨some "bad", none⟩ ∧
    (userContextMiddleware sampleCheckToken ⟨some "bad", none⟩).thrown = none ∧
    (userContextMiddleware sampleCheckToken ⟨some "bad", none⟩).nextCalls = [none] ∧
    ((⟨some "bad", none⟩ : Request).user = none →
      (graphqlContext (userContextMiddleware sampleCheckToken ⟨some "bad", none⟩).req).user =
        none) :=
  middleware_anonymous_passes_on sampleCheckToken ⟨some "bad", none⟩
    (Or.inr (Or.inr (Or.inr
      ⟨"bad", rfl, Or.inl ⟨.other "JsonWebTokenError: jwt malformed", rfl⟩⟩)))

/-- C7, the code at a failing input: the schema declares
`createGroup(name, username): String`, so the mutation that passes a name, an
iconUrl and a description with the context of the tests is rejected by
validation for the two arguments the schema does not know, the resolver does
not run and the store keeps its Groups; called directly with the same
arguments, the resolver of `groups.js` does add the Group that carries the
three values; and the mutation the schema accepts, with `name` and
`username`, adds a Group without icon and description. -/
theorem createGroup_schema_rejects_iconUrl_description :
    (mutationType.field "createGroup").map (fun f => f.args.map Prod.fst) =
      some ["name", "username"] ∧
    (mutationType.field "createGroup").map (fun f => f.type) = some (.named "String") ∧
    requestCreateGroup
        [("name", .str "g"), ("iconUrl", .str "u"), ("description", .str "d")] []
        testContext sampleWorld =
      (.invalid
        [.unknownArgument "Mutation" "createGroup" "iconUrl",
          .unknownArgument "Mutation" "createGroup" "description"], sampleWorld) ∧
    (createGroup.run .rootValue
        [("name", .str "g"), ("iconUrl", .str "u"), ("description", .str "d")]
        testContext sampleWorld).1 =
      .ok (.group ⟨2, .str "u", .str "g", .str "d", false⟩) ∧
    (createGroup.run .rootValue
        [("name", .str "g"), ("iconUrl", .str "u"), ("description", .str "d")]
        testContext sampleWorld).2.store.groups =
      [⟨1, .undefined, .str "friend", .undefined, true⟩,
        ⟨2, .str "u", .str "g", .str "d", false⟩] ∧
    (requestCreateGroup [("name", .str "g"), ("username", .str "x")] []
        testContext sampleWorld).1 =
      .resolved (.ok (.group ⟨2, .undefined, .str "g", .undefined, false⟩)) := by
  refine ⟨by decide, by decide, rfl, rfl, rfl, rfl⟩

/-- C8: for every Group row, arguments and context, with or without a
principal, `getChats` resolves to the chats of the group and `getMembers` to
its members, and both leave the store as it was. -/
theorem getChats_getMembers_read_only (g : GroupRow) (args : Obj) (context : Context)
    (w : World) :
    (getChats.run (.group g) args context w).1 = .ok (.chats (g.getChats w.store)) ∧
    (getChats.run (.group g) args context w).2.store = w.store ∧
    (getMembers.run (.group g) args context w).1 = .ok (.users (g.getMembers w.store)) ∧
    (getMembers.run (.group g) args context w).2.store = w.store := by
  simp [getChats, getMembers, base_child_run, getChatsFn, getMembersFn]

/-- C9, the code at a failing input: the type `Group` of the schema has no
field `isDirectMessage`, and the query of the test "Two new friends are in a
direct message group" is rejected by validation for that field. -/
theorem group_type_lacks_isDirectMessage :
    groupType.field "isDirectMessage" = none ∧
    (groupType.fields.map (fun f => f.name)) =
      ["id", "iconUrl", "name", "description", "chats", "members"] ∧
    validateFields typeDefs "Query" firstUserQuery =
      [.unknownField "Group" "isDirectMessage"] := by
  refine ⟨by decide, by decide, by decide⟩

/-- C10, the code at a failing input: the mutation `createFriendRequest` takes
(message, fromUserId, toUserId) and its declared result type is the scalar
`String`, so the selection of `id` on its result, as the test "Send new friend
request" makes it, is rejected by validation. -/
theorem createFriendRequest_result_is_scalar :
    (mutationType.field "createFriendRequest").map (fun f => f.args.map Prod.fst) =
      some ["message", "fromUserId", "toUserId"] ∧
    (mutationType.field "createFriendRequest").map (fun f => f.type) =
      some (.named "String") ∧
    scalarTypes.contains "String" = true ∧
    validateFields typeDefs "Mutation" createFriendRequestQuery =
      [.noSubselectionAllowed "createFriendRequest" "String"] := by
  refine ⟨by decide, by decide, by decide, by decide⟩

end Remix
